import Mathlib

/-!
Verification of the orchestration logic of `src/app.ts` from the
langchain-language-correctness-detector repository.

The TypeScript module is embedded shallowly:

* JSON values carry rational numbers (`Rat`), so the zod check
  `z.number().int()` is a real side condition (`den = 1`) rather than a
  vacuous one.
* The zod object schema is data: a list of field names with a field type
  and the `.describe(...)` string, mirroring `classificationSchema`.
* Prompt rendering models the f-string placeholder substitution used by
  `ChatPromptTemplate` (the templates of this repository use no escape
  sequence such as a doubled brace, so none is modelled).
* The network is a parameter: a stub backend maps the rendered call to
  either a failure (authentication or transport) or a raw JSON reply.
  `run` returns the trace of backend calls, the list of values written by
  `console.log`, and the propagated error, if any.
-/

namespace App

/-- JSON values, numbers modelled as rationals. -/
inductive Json where
  | null : Json
  | bool (b : Bool) : Json
  | num (q : Rat) : Json
  | str (s : String) : Json
  | arr (xs : List Json) : Json
  | obj (fields : List (String × Json)) : Json

/-- Chat-completion clients, as constructed in `app.ts`: each carries the
model identifier and the sampling temperature passed to the constructor. -/
inductive Backend where
  | chatOpenAI (model : String) (temperature : Rat) : Backend
  | chatVertexAI (model : String) (temperature : Rat) : Backend
deriving DecidableEq

/-- The module-level provider selection:
`if (process.env.LLM_PROVIDER == "OPENAI") { new ChatOpenAI({model: "gpt-4", temperature: 0}) } else { new ChatVertexAI({model: "gemini-1.5-pro-001", temperature: 0}) }`.
`process.env.LLM_PROVIDER` is a string or undefined, hence `Option String`;
the JS loose equality `==` against a string literal holds exactly on the
equal string. -/
def model (llmProvider : Option String) : Backend :=
  if llmProvider = some "OPENAI" then
    Backend.chatOpenAI "gpt-4" 0
  else
    Backend.chatVertexAI "gemini-1.5-pro-001" 0

/-- C1: the provider selector chooses the OpenAI chat client exactly when
`LLM_PROVIDER` is the string "OPENAI"; every other value (unset included)
selects the Vertex AI client. -/
theorem model_openai_iff (p : Option String) :
    (model p = Backend.chatOpenAI "gpt-4" 0 ↔ p = some "OPENAI") ∧
    (p ≠ some "OPENAI" → model p = Backend.chatVertexAI "gemini-1.5-pro-001" 0) := by
  constructor
  · constructor
    · intro h
      by_contra hp
      rw [model, if_neg hp] at h
      exact Backend.noConfusion h
    · intro hp
      rw [model, if_pos hp]
  · intro hp
    rw [model, if_neg hp]

/-- C1 witness: the differently-cased value "openai" selects the Vertex AI
client. -/
theorem model_openai_iff_witness :
    some "openai" ≠ some "OPENAI" ∧
    model (some "openai") = Backend.chatVertexAI "gemini-1.5-pro-001" 0 :=
  ⟨by decide, (model_openai_iff (some "openai")).2 (by decide)⟩

/-! ### Prompt template -/

/-- Chat message roles used by `ChatPromptTemplate.fromMessages`. -/
inductive Role where
  | system : Role
  | user : Role
deriving DecidableEq

/-- A rendered chat message. -/
structure Message where
  role : Role
  content : String
deriving DecidableEq

/-- `const systemTemplate = "You are an expert in {language}, you have to detect grammar problems sentences";` -/
def systemTemplate : String :=
  "You are an expert in {language}, you have to detect grammar problems sentences"

/-- `ChatPromptTemplate.fromMessages([["system", systemTemplate], ["user", "{text}"]])`. -/
def promptTemplate : List (Role × String) :=
  [(Role.system, systemTemplate), (Role.user, "{text}")]

/-- One pass of f-string substitution over the characters of a template.
In copy mode (first argument `none`) characters are emitted verbatim until
an opening brace switches to key mode; in key mode (`some acc`, the key
characters read so far in reverse) characters accumulate until the closing
brace, at which point the named input variable is spliced in. An
unterminated placeholder or a missing input variable is a rendering error
(`none`), as the template library throws in those cases. -/
def substGo (vars : List (String × String)) :
    Option (List Char) → List Char → Option (List Char)
  | none, [] => some []
  | none, c :: rest =>
    if c = '{' then substGo vars (some []) rest
    else (substGo vars none rest).map (fun cs => c :: cs)
  | some _, [] => none
  | some acc, c :: rest =>
    if c = '}' then
      match vars.lookup (String.mk acc.reverse) with
      | none => none
      | some v => (substGo vars none rest).map (fun cs => v.data ++ cs)
    else substGo vars (some (c :: acc)) rest

/-- Render one `(role, template)` pair against the supplied input variables. -/
def renderMessage (vars : List (String × String)) (rt : Role × String) :
    Option Message :=
  (substGo vars none rt.2.data).map (fun cs => ⟨rt.1, String.mk cs⟩)

/-- Render every message of a template list. -/
def renderAll (vars : List (String × String)) :
    List (Role × String) → Option (List Message)
  | [] => some []
  | rt :: rest =>
    match renderMessage vars rt, renderAll vars rest with
    | some m, some ms => some (m :: ms)
    | _, _ => none

/-- `promptTemplate.invoke(vars)`: the rendered prompt. -/
def formatMessages (vars : List (String × String)) : Option (List Message) :=
  renderAll vars promptTemplate

lemma substGo_no_brace (vars : List (String × String)) (l : List Char)
    (h : '{' ∉ l) : substGo vars none l = some l := by
  induction l with
  | nil => rfl
  | cons c rest ih =>
    simp only [List.mem_cons, not_or] at h
    rw [substGo, if_neg (fun hc => h.1 hc.symm), ih h.2, Option.map_some']

lemma substGo_append (vars : List (String × String)) (pre l : List Char)
    (h : '{' ∉ pre) :
    substGo vars none (pre ++ l) =
      (substGo vars none l).map (fun cs => pre ++ cs) := by
  induction pre with
  | nil =>
    simp only [List.nil_append]
    cases substGo vars none l <;> rfl
  | cons c pre ih =>
    simp only [List.mem_cons, not_or] at h
    rw [List.cons_append, substGo, if_neg (fun hc => h.1 hc.symm), ih h.2,
      Option.map_map]
    cases substGo vars none l <;> rfl

lemma substGo_key (vars : List (String × String)) (key rest : List Char)
    (v : String) (h : '}' ∉ key) :
    ∀ acc : List Char, vars.lookup (String.mk (acc.reverse ++ key)) = some v →
      substGo vars (some acc) (key ++ '}' :: rest) =
        (substGo vars none rest).map (fun cs => v.data ++ cs) := by
  induction key with
  | nil =>
    intro acc hv
    rw [List.nil_append, substGo, if_pos rfl]
    rw [List.append_nil] at hv
    rw [hv]
  | cons c key ih =>
    intro acc hv
    simp only [List.mem_cons, not_or] at h
    rw [List.cons_append, substGo, if_neg (fun hc => h.1 hc.symm)]
    apply ih h.2
    rw [List.reverse_cons, List.append_assoc, List.singleton_append]
    exact hv

lemma substGo_placeholder (vars : List (String × String)) (key rest : List Char)
    (v : String) (h : '}' ∉ key)
    (hv : vars.lookup (String.mk key) = some v) :
    substGo vars none ('{' :: (key ++ '}' :: rest)) =
      (substGo vars none rest).map (fun cs => v.data ++ cs) := by
  rw [substGo, if_pos rfl]
  exact substGo_key vars key rest v h [] hv

lemma string_mk_data (a : String) : String.mk a.data = a := by
  cases a
  rfl

lemma string_data_append (a b : String) : (a ++ b).data = a.data ++ b.data := by
  cases a
  cases b
  rfl

/-- Splitting the system template around its placeholder. -/
lemma systemTemplate_split :
    systemTemplate.data =
      "You are an expert in ".data ++
        '{' :: ("language".data ++
          '}' :: ", you have to detect grammar problems sentences".data) := by
  rfl

/-- Rendering the two-message prompt against input variables
`language` and `text`. -/
lemma formatMessages_eq (language text : String) :
    formatMessages [("language", language), ("text", text)] =
      some [⟨Role.system,
              "You are an expert in " ++ language ++
                ", you have to detect grammar problems sentences"⟩,
            ⟨Role.user, text⟩] := by
  have hsys : substGo [("language", language), ("text", text)] none
      systemTemplate.data =
      some ("You are an expert in ".data ++
        (language.data ++ ", you have to detect grammar problems sentences".data)) := by
    rw [systemTemplate_split,
      substGo_append _ _ _ (by decide),
      substGo_placeholder _ _ _ language (by decide) (by rfl),
      substGo_no_brace _ _ (by decide)]
    rfl
  have htxt : substGo [("language", language), ("text", text)] none
      "{text}".data = some text.data := by
    have hsplit : "{text}".data = '{' :: ("text".data ++ '}' :: ([] : List Char)) := by
      rfl
    rw [hsplit, substGo_placeholder _ _ _ text (by decide) (by rfl)]
    simp [substGo]
  have hcontent : "You are an expert in " ++ language ++
      ", you have to detect grammar problems sentences" =
      String.mk ("You are an expert in ".data ++
        (language.data ++ ", you have to detect grammar problems sentences".data)) := by
    rw [← List.append_assoc, ← string_data_append, ← string_data_append,
      string_mk_data]
  simp only [formatMessages, promptTemplate, renderAll, renderMessage, hsys, htxt,
    Option.map_some', hcontent, string_mk_data]

/-- C2: for every (language, text) pair, rendering the prompt template
yields exactly two messages; the system message is the template with
`{language}` substituted, and the user message is the input text verbatim. -/
theorem promptTemplate_renders (language text : String) :
    formatMessages [("language", language), ("text", text)] =
      some [⟨Role.system,
              "You are an expert in " ++ language ++
                ", you have to detect grammar problems sentences"⟩,
            ⟨Role.user, text⟩] :=
  formatMessages_eq language text

/-! ### The zod classification schema -/

/-- The four zod field shapes used by `classificationSchema`. -/
inductive FieldType where
  | fEnum (options : List String) : FieldType
  | fIntRange (lo hi : Int) : FieldType
  | fString : FieldType
  | fStringArray : FieldType
deriving DecidableEq

/-- A schema field: its shape together with the `.describe(...)` text. -/
structure FieldSpec where
  fieldType : FieldType
  description : String
deriving DecidableEq

/-- A zod object schema: named fields in declaration order. -/
abbrev ZodObject : Type := List (String × FieldSpec)

/-- `const classificationSchema = z.object({...})` of `app.ts`, verbatim:
field order, shapes, and description strings (typos included). -/
def classificationSchema : ZodObject :=
  [("sentiment",
    ⟨FieldType.fEnum ["happy", "neutral", "sad", "angry", "frustrated"],
     "The sentiment of the text"⟩),
   ("aggressiveness",
    ⟨FieldType.fIntRange 1 10,
     "How aggressive the text is on a scale from 1 to 10"⟩),
   ("correctness",
    ⟨FieldType.fIntRange 1 10,
     "How the sentece is correct grammarly the text is on a scale from 1 to 10"⟩),
   ("errors",
    ⟨FieldType.fStringArray,
     "The errors in the text. Specify the proper way to write the text and where it is wrong. Explain it in a human-readable way. Write each errror in a separate string"⟩),
   ("solution",
    ⟨FieldType.fString,
     "The solution to the errors in the text. Write the solution in {language}"⟩),
   ("language",
    ⟨FieldType.fString,
     "The language the text is written in"⟩)]

/-- Field access on a JSON object (first binding wins). -/
def getField (j : Json) (k : String) : Option Json :=
  match j with
  | Json.obj fields => fields.lookup k
  | _ => none

/-- Whether a JSON value is a string. -/
def Json.isString : Json → Bool
  | Json.str _ => true
  | _ => false

/-- Validation of one value against one zod field shape. `z.enum` accepts
exactly the listed strings; `z.number().int().min(lo).max(hi)` accepts a
number that is an integer and lies in `[lo, hi]`; `z.string()` accepts any
string; `z.array(z.string())` accepts a list of strings. -/
def checkFieldValue : FieldType → Json → Bool
  | FieldType.fEnum options, Json.str s => options.contains s
  | FieldType.fEnum _, _ => false
  | FieldType.fIntRange lo hi, Json.num q =>
    decide (q.den = 1) && decide ((lo : Rat) ≤ q) && decide (q ≤ (hi : Rat))
  | FieldType.fIntRange _ _, _ => false
  | FieldType.fString, Json.str _ => true
  | FieldType.fString, _ => false
  | FieldType.fStringArray, Json.arr xs => xs.all Json.isString
  | FieldType.fStringArray, _ => false

/-- Parse the declared fields of a schema out of a JSON value: every field
must be present and satisfy its shape; the output keeps the declared fields
in schema declaration order (unknown keys are stripped, as zod does). -/
def zodParseFields (j : Json) : ZodObject → Option (List (String × Json))
  | [] => some []
  | (k, spec) :: rest =>
    match getField j k with
    | none => none
    | some v =>
      if checkFieldValue spec.fieldType v then
        (zodParseFields j rest).map (fun fs => (k, v) :: fs)
      else
        none

/-- `schema.parse(raw)`: succeeds only on a JSON object whose declared
fields all validate. -/
def zodParse (schema : ZodObject) (j : Json) : Option (List (String × Json)) :=
  match j with
  | Json.obj _ => zodParseFields j schema
  | _ => none

lemma zodParseFields_cons (j : Json) (k : String) (spec : FieldSpec)
    (rest : ZodObject) (fields : List (String × Json))
    (h : zodParseFields j ((k, spec) :: rest) = some fields) :
    ∃ v fs, getField j k = some v ∧ checkFieldValue spec.fieldType v = true ∧
      zodParseFields j rest = some fs ∧ fields = (k, v) :: fs := by
  rw [zodParseFields] at h
  split at h
  · exact absurd h (by simp)
  · rename_i v hg
    split at h
    · rename_i hc
      cases hr : zodParseFields j rest with
      | none => rw [hr] at h; exact absurd h (by simp)
      | some fs =>
        rw [hr] at h
        refine ⟨v, fs, hg, hc, rfl, ?_⟩
        simpa using h.symm
    · exact absurd h (by simp)

lemma checkFieldValue_fEnum (options : List String) (v : Json)
    (h : checkFieldValue (FieldType.fEnum options) v = true) :
    ∃ s, v = Json.str s ∧ s ∈ options := by
  cases v <;> simp [checkFieldValue] at h
  next s => exact ⟨s, rfl, h⟩

lemma checkFieldValue_fIntRange (lo hi : Int) (v : Json)
    (h : checkFieldValue (FieldType.fIntRange lo hi) v = true) :
    ∃ q : Rat, v = Json.num q ∧ q.den = 1 ∧ (lo : Rat) ≤ q ∧ q ≤ (hi : Rat) := by
  cases v with
  | null => exact absurd h (by simp [checkFieldValue])
  | bool b => exact absurd h (by simp [checkFieldValue])
  | num q =>
    simp only [checkFieldValue, Bool.and_eq_true, decide_eq_true_eq] at h
    exact ⟨q, rfl, h.1.1, h.1.2, h.2⟩
  | str s => exact absurd h (by simp [checkFieldValue])
  | arr xs => exact absurd h (by simp [checkFieldValue])
  | obj fields => exact absurd h (by simp [checkFieldValue])

lemma checkFieldValue_fString (v : Json)
    (h : checkFieldValue FieldType.fString v = true) :
    ∃ s, v = Json.str s := by
  cases v <;> simp [checkFieldValue] at h
  next s => exact ⟨s, rfl⟩

lemma checkFieldValue_fStringArray (v : Json)
    (h : checkFieldValue FieldType.fStringArray v = true) :
    ∃ xs, v = Json.arr xs ∧ ∀ e ∈ xs, ∃ s, e = Json.str s := by
  cases v <;> simp [checkFieldValue] at h
  next xs =>
    refine ⟨xs, rfl, ?_⟩
    intro e he
    have h2 := h e he
    cases e <;> simp [Json.isString] at h2
    next s => exact ⟨s, rfl⟩

/-- C3: every value the classification schema accepts has exactly the six
declared fields, in declaration order, and each satisfies its constraint:
the sentiment is one of the five listed labels, aggressiveness and
correctness are integers in [1, 10], errors is a list of strings, and
solution and language are strings; moreover each field was present in the
input object. -/
theorem classificationSchema_accepts_only_valid (j : Json)
    (fields : List (String × Json))
    (h : zodParse classificationSchema j = some fields) :
    (∃ s qa qc xs sol lang,
      fields =
        [("sentiment", Json.str s), ("aggressiveness", Json.num qa),
         ("correctness", Json.num qc), ("errors", Json.arr xs),
         ("solution", Json.str sol), ("language", Json.str lang)] ∧
      s ∈ ["happy", "neutral", "sad", "angry", "frustrated"] ∧
      qa.den = 1 ∧ 1 ≤ qa ∧ qa ≤ 10 ∧
      qc.den = 1 ∧ 1 ≤ qc ∧ qc ≤ 10 ∧
      (∀ e ∈ xs, ∃ es, e = Json.str es)) ∧
    (∀ k ∈ ["sentiment", "aggressiveness", "correctness", "errors",
            "solution", "language"], (getField j k).isSome = true) := by
  have hfields : zodParseFields j classificationSchema = some fields := by
    cases j with
    | obj fs0 => exact h
    | null => exact absurd h (by simp [zodParse])
    | bool b => exact absurd h (by simp [zodParse])
    | num q => exact absurd h (by simp [zodParse])
    | str s => exact absurd h (by simp [zodParse])
    | arr xs => exact absurd h (by simp [zodParse])
  rw [classificationSchema] at hfields
  obtain ⟨v1, f1, hg1, hc1, hr1, he1⟩ := zodParseFields_cons _ _ _ _ _ hfields
  obtain ⟨v2, f2, hg2, hc2, hr2, he2⟩ := zodParseFields_cons _ _ _ _ _ hr1
  obtain ⟨v3, f3, hg3, hc3, hr3, he3⟩ := zodParseFields_cons _ _ _ _ _ hr2
  obtain ⟨v4, f4, hg4, hc4, hr4, he4⟩ := zodParseFields_cons _ _ _ _ _ hr3
  obtain ⟨v5, f5, hg5, hc5, hr5, he5⟩ := zodParseFields_cons _ _ _ _ _ hr4
  obtain ⟨v6, f6, hg6, hc6, hr6, he6⟩ := zodParseFields_cons _ _ _ _ _ hr5
  have hf6 : f6 = [] := by
    rw [zodParseFields] at hr6
    simpa using hr6.symm
  obtain ⟨s, hv1, hs⟩ := checkFieldValue_fEnum _ _ hc1
  obtain ⟨qa, hv2, hqa1, hqa2, hqa3⟩ := checkFieldValue_fIntRange _ _ _ hc2
  obtain ⟨qc, hv3, hqc1, hqc2, hqc3⟩ := checkFieldValue_fIntRange _ _ _ hc3
  obtain ⟨xs, hv4, hxs⟩ := checkFieldValue_fStringArray _ hc4
  obtain ⟨sol, hv5⟩ := checkFieldValue_fString _ hc5
  obtain ⟨lang, hv6⟩ := checkFieldValue_fString _ hc6
  constructor
  · refine ⟨s, qa, qc, xs, sol, lang, ?_, hs, ?_, ?_, ?_, ?_, ?_, ?_, hxs⟩
    · rw [he1, he2, he3, he4, he5, he6, hf6, hv1, hv2, hv3, hv4, hv5, hv6]
    · exact hqa1
    · exact_mod_cast hqa2
    · exact_mod_cast hqa3
    · exact hqc1
    · exact_mod_cast hqc2
    · exact_mod_cast hqc3
  · intro k hk
    simp only [List.mem_cons, List.not_mem_nil, or_false] at hk
    rcases hk with rfl | rfl | rfl | rfl | rfl | rfl
    · rw [hg1]; rfl
    · rw [hg2]; rfl
    · rw [hg3]; rfl
    · rw [hg4]; rfl
    · rw [hg5]; rfl
    · rw [hg6]; rfl

/-- C3 witness: the example result of the specification is accepted, and
the conclusion holds of it. -/
theorem classificationSchema_accepts_only_valid_witness :
    (∃ s qa qc xs sol lang,
      [("sentiment", Json.str "angry"), ("aggressiveness", Json.num 2),
       ("correctness", Json.num 7),
       ("errors", Json.arr [Json.str "use estar not ser for temporary states"]),
       ("solution", Json.str "Yo estoy enfadado"),
       ("language", Json.str "Spanish")] =
        [("sentiment", Json.str s), ("aggressiveness", Json.num qa),
         ("correctness", Json.num qc), ("errors", Json.arr xs),
         ("solution", Json.str sol), ("language", Json.str lang)] ∧
      s ∈ ["happy", "neutral", "sad", "angry", "frustrated"] ∧
      qa.den = 1 ∧ 1 ≤ qa ∧ qa ≤ 10 ∧
      qc.den = 1 ∧ 1 ≤ qc ∧ qc ≤ 10 ∧
      (∀ e ∈ xs, ∃ es, e = Json.str es)) ∧
    (∀ k ∈ ["sentiment", "aggressiveness", "correctness", "errors",
            "solution", "language"],
      (getField (Json.obj
        [("sentiment", Json.str "angry"), ("aggressiveness", Json.num 2),
         ("correctness", Json.num 7),
         ("errors", Json.arr [Json.str "use estar not ser for temporary states"]),
         ("solution", Json.str "Yo estoy enfadado"),
         ("language", Json.str "Spanish")]) k).isSome = true) :=
  classificationSchema_accepts_only_valid _ _ rfl

/-! ### Orchestration -/

/-- A backend failure outside the control of the script: the credential is
rejected, or the transport fails. -/
inductive BackendFailure where
  | authenticationError : BackendFailure
  | networkError : BackendFailure
deriving DecidableEq

/-- The errors a single execution can propagate: a template rendering
error, a failure of the backend call itself, or a response that does not
conform to the declared schema. -/
inductive RunError where
  | templateError : RunError
  | backendError (f : BackendFailure) : RunError
  | validationError : RunError
deriving DecidableEq

/-- One schema-constrained backend invocation as put on the wire: the
rendered messages together with the schema descriptor and its name. -/
structure BackendCall where
  messages : List Message
  schema : ZodObject
  name : String
deriving DecidableEq

/-- A stub backend: maps an invocation to a failure or a raw JSON reply. -/
abbrev Stub : Type := BackendCall → Except BackendFailure Json

/-- `model.withStructuredOutput(classificationSchema, { name: "extractor" })`:
the structured-output wrapper carries the schema and the descriptor name. -/
structure StructuredLLM where
  schema : ZodObject
  name : String

/-- The wrapper built inside `run`. -/
def llmWihStructuredOutput : StructuredLLM :=
  ⟨classificationSchema, "extractor"⟩

/-- The observable outcome of one execution: the backend calls made (in
order), the values written by `console.log` (in order), and the error that
propagated out, if any. -/
structure RunResult where
  calls : List BackendCall
  printed : List Json
  error : Option RunError

/-- `promptTemplate.pipe(llmWihStructuredOutput)` followed by
`chain.invoke({language, text})` and `console.log({ result })`: render the
prompt, call the backend once, validate the reply against the schema, and
log the validated object under the key `result`. Every failure propagates
immediately; nothing is printed, and no further call is made. -/
def chainInvoke (stub : Stub) (language text : String) : RunResult :=
  match formatMessages [("language", language), ("text", text)] with
  | none => ⟨[], [], some RunError.templateError⟩
  | some msgs =>
    match stub ⟨msgs, llmWihStructuredOutput.schema, llmWihStructuredOutput.name⟩ with
    | Except.error f =>
      ⟨[⟨msgs, llmWihStructuredOutput.schema, llmWihStructuredOutput.name⟩], [],
        some (RunError.backendError f)⟩
    | Except.ok raw =>
      match zodParse llmWihStructuredOutput.schema raw with
      | none =>
        ⟨[⟨msgs, llmWihStructuredOutput.schema, llmWihStructuredOutput.name⟩], [],
          some RunError.validationError⟩
      | some fields =>
        ⟨[⟨msgs, llmWihStructuredOutput.schema, llmWihStructuredOutput.name⟩],
          [Json.obj [("result", Json.obj fields)]], none⟩

/-- `export const run = async () => {...}`: the single top-level operation,
invoked once with the fixed input pair of `app.ts`. -/
def run (stub : Stub) : RunResult :=
  chainInvoke stub "Spanish" "Yo estas enfadado consigo"

/-- The prompt of the fixed input pair, rendered. -/
def sampleMessages : List Message :=
  [⟨Role.system,
    "You are an expert in Spanish, you have to detect grammar problems sentences"⟩,
   ⟨Role.user, "Yo estas enfadado consigo"⟩]

/-- The single backend invocation a run performs. -/
def sampleCall : BackendCall :=
  ⟨sampleMessages, classificationSchema, "extractor"⟩

lemma formatMessages_sample :
    formatMessages [("language", "Spanish"), ("text", "Yo estas enfadado consigo")] =
      some sampleMessages := by
  rw [formatMessages_eq]
  rfl

/-- One unfolding of `run`: the prompt of the fixed input renders, so the
outcome depends only on the stub reply at the single call. -/
lemma run_eq (stub : Stub) :
    run stub =
      match stub sampleCall with
      | Except.error f => ⟨[sampleCall], [], some (RunError.backendError f)⟩
      | Except.ok raw =>
        match zodParse classificationSchema raw with
        | none => ⟨[sampleCall], [], some RunError.validationError⟩
        | some fields =>
          ⟨[sampleCall], [Json.obj [("result", Json.obj fields)]], none⟩ := by
  rw [run, chainInvoke, formatMessages_sample]
  rfl

/-- C9: whichever branch the selector takes, the client is built with a
fixed model identifier and temperature 0. -/
theorem model_fixed_config (p : Option String) :
    model p = Backend.chatOpenAI "gpt-4" 0 ∨
    model p = Backend.chatVertexAI "gemini-1.5-pro-001" 0 := by
  rw [model]
  split
  · exact Or.inl rfl
  · exact Or.inr rfl

/-! ### Concrete scenarios -/

/-- The fields of the example Classification Result of the specification. -/
def exampleFields : List (String × Json) :=
  [("sentiment", Json.str "angry"), ("aggressiveness", Json.num 2),
   ("correctness", Json.num 7),
   ("errors", Json.arr [Json.str "use estar not ser for temporary states"]),
   ("solution", Json.str "Yo estoy enfadado"),
   ("language", Json.str "Spanish")]

/-- The example Classification Result, as a JSON object. -/
def exampleResult : Json := Json.obj exampleFields

/-- A stub backend that always answers with the example result. -/
def exampleStub : Stub := fun _ => Except.ok exampleResult

/-- A reply that violates the aggressiveness upper bound (15 > 10). -/
def overAggressive : Json :=
  Json.obj
    [("sentiment", Json.str "angry"), ("aggressiveness", Json.num 15),
     ("correctness", Json.num 7),
     ("errors", Json.arr [Json.str "use estar not ser for temporary states"]),
     ("solution", Json.str "Yo estoy enfadado"),
     ("language", Json.str "Spanish")]

/-- A stub backend that always answers with the malformed reply. -/
def overAggressiveStub : Stub := fun _ => Except.ok overAggressive

/-- A stub backend whose call always fails at the transport layer. -/
def netFailStub : Stub := fun _ => Except.error BackendFailure.networkError

lemma run_calls_sample (stub : Stub) : (run stub).calls = [sampleCall] := by
  cases hs : stub sampleCall with
  | error f => simp only [run_eq, hs]
  | ok raw =>
    cases hz : zodParse classificationSchema raw with
    | none => simp only [run_eq, hs, hz]
    | some fields => simp only [run_eq, hs, hz]

/-- C4: whenever the backend reply violates the declared schema, the run
surfaces the validation error and prints nothing. -/
theorem run_validation_error (stub : Stub) (raw : Json)
    (hstub : stub sampleCall = Except.ok raw)
    (hbad : zodParse classificationSchema raw = none) :
    (run stub).error = some RunError.validationError ∧
    (run stub).printed = [] := by
  constructor <;> simp only [run_eq, hstub, hbad]

/-- C4 witness: a reply with aggressiveness 15 is rejected, not printed. -/
theorem run_validation_error_witness :
    (run overAggressiveStub).error = some RunError.validationError ∧
    (run overAggressiveStub).printed = [] :=
  run_validation_error overAggressiveStub overAggressive rfl rfl

/-- C5: a run renders the one fixed input pair and performs exactly one
backend invocation carrying that prompt; on a conforming reply exactly one
structured entity is printed. -/
theorem run_single_call (stub : Stub) :
    (run stub).calls = [sampleCall] ∧
    (run stub).calls.length = 1 ∧
    (∀ raw fields, stub sampleCall = Except.ok raw →
      zodParse classificationSchema raw = some fields →
      (run stub).printed = [Json.obj [("result", Json.obj fields)]]) := by
  refine ⟨run_calls_sample stub, by rw [run_calls_sample stub]; rfl, ?_⟩
  intro raw fields hs hz
  simp only [run_eq, hs, hz]

/-- C5 witness: with the example stub, the single printed value is the
example entity. -/
theorem run_single_call_witness :
    (run exampleStub).printed = [Json.obj [("result", Json.obj exampleFields)]] :=
  (run_single_call exampleStub).2.2 exampleResult exampleFields rfl rfl

/-- C6: if the backend returns an object that the schema accepts as
exactly itself (any Classification Result with the six declared fields in
declaration order), the run prints that exact object unchanged, under the
`result` key, and no error occurs. -/
theorem run_emits_unchanged (stub : Stub) (fields : List (String × Json))
    (hstub : stub sampleCall = Except.ok (Json.obj fields))
    (hvalid : zodParse classificationSchema (Json.obj fields) = some fields) :
    (run stub).printed = [Json.obj [("result", Json.obj fields)]] ∧
    (run stub).error = none := by
  constructor <;> simp only [run_eq, hstub, hvalid]

/-- C6 witness: the example result is emitted exactly as received. -/
theorem run_emits_unchanged_witness :
    (run exampleStub).printed = [Json.obj [("result", Json.obj exampleFields)]] ∧
    (run exampleStub).error = none :=
  run_emits_unchanged exampleStub exampleFields rfl rfl

/-- C7 counterexample: the fixed input pair the source binds is not the
text of the claim. The single call of a run carries the user message
"Yo estas enfadado consigo"; no message of it has content
"Yo soy enfadado". -/
theorem run_sample_text_counterexample :
    (run exampleStub).calls = [sampleCall] ∧
    sampleCall.messages =
      [⟨Role.system,
        "You are an expert in Spanish, you have to detect grammar problems sentences"⟩,
       ⟨Role.user, "Yo estas enfadado consigo"⟩] ∧
    (∀ m ∈ sampleCall.messages, m.content ≠ "Yo soy enfadado") := by
  refine ⟨rfl, rfl, by decide⟩

/-- C7 (amended): the orchestration binds the fixed sample input pair
(language "Spanish", text "Yo estas enfadado consigo") to the template;
given a stub backend returning the example Classification Result of the
specification, it prints exactly that object, as the `result` field of the
single logged value. -/
theorem run_example_scenario :
    (run exampleStub).calls =
      [⟨[⟨Role.system,
          "You are an expert in Spanish, you have to detect grammar problems sentences"⟩,
         ⟨Role.user, "Yo estas enfadado consigo"⟩],
        classificationSchema, "extractor"⟩] ∧
    (run exampleStub).printed = [Json.obj [("result", exampleResult)]] ∧
    (run exampleStub).error = none :=
  ⟨rfl, rfl, rfl⟩

/-- C8: the source handles no error. A backend failure propagates out of
the run unchanged, a non-conforming reply propagates as the validation
error, in either case nothing is printed, and never more than the single
call is made (no retry, no recovery). -/
theorem run_no_error_handling (stub : Stub) :
    (∀ f, stub sampleCall = Except.error f →
      (run stub).error = some (RunError.backendError f) ∧
      (run stub).printed = []) ∧
    (∀ raw, stub sampleCall = Except.ok raw →
      zodParse classificationSchema raw = none →
      (run stub).error = some RunError.validationError ∧
      (run stub).printed = []) ∧
    (run stub).calls.length ≤ 1 := by
  refine ⟨?_, ?_, ?_⟩
  · intro f hs
    constructor <;> simp only [run_eq, hs]
  · intro raw hs hz
    constructor <;> simp only [run_eq, hs, hz]
  · rw [run_calls_sample stub]
    exact Nat.le_refl 1

/-- C8 witness: a transport failure propagates out unchanged and nothing
is printed. -/
theorem run_no_error_handling_witness :
    (run netFailStub).error =
      some (RunError.backendError BackendFailure.networkError) ∧
    (run netFailStub).printed = [] :=
  (run_no_error_handling netFailStub).1 BackendFailure.networkError rfl

lemma chainInvoke_calls (stub : Stub) (language text : String) :
    (chainInvoke stub language text).calls = [] ∨
    ∃ msgs, (chainInvoke stub language text).calls =
      [⟨msgs, llmWihStructuredOutput.schema, llmWihStructuredOutput.name⟩] := by
  rw [chainInvoke]
  cases hf : formatMessages [("language", language), ("text", text)] with
  | none => exact Or.inl rfl
  | some msgs =>
    refine Or.inr ⟨msgs, ?_⟩
    cases hs : stub ⟨msgs, llmWihStructuredOutput.schema, llmWihStructuredOutput.name⟩ with
    | error f => simp only [hs]
    | ok raw =>
      cases hz : zodParse llmWihStructuredOutput.schema raw with
      | none => simp only [hs, hz]
      | some fields => simp only [hs, hz]

/-- C10: the schema put on the wire is the static `classificationSchema`
on every call, whatever the stub, language and text; and placeholder
substitution never touches it: the description of the solution field is
the fixed string still containing the literal substring "{language}". -/
theorem schema_static (stub : Stub) (language text : String) :
    (∀ c ∈ (chainInvoke stub language text).calls,
      c.schema = classificationSchema) ∧
    classificationSchema.lookup "solution" =
      some ⟨FieldType.fString,
        "The solution to the errors in the text. Write the solution in {language}"⟩ ∧
    (∃ pre post : String,
      "The solution to the errors in the text. Write the solution in {language}" =
        pre ++ "{language}" ++ post) := by
  refine ⟨?_, rfl,
    ⟨"The solution to the errors in the text. Write the solution in ", "", rfl⟩⟩
  intro c hc
  rcases chainInvoke_calls stub language text with hnil | ⟨msgs, hone⟩
  · rw [hnil] at hc
    exact absurd hc (List.not_mem_nil c)
  · rw [hone] at hc
    rw [List.mem_singleton] at hc
    rw [hc]
    rfl

/-- C10 witness: the schema of the single call of the example scenario is
the static classification schema. -/
theorem schema_static_witness : sampleCall.schema = classificationSchema :=
  (schema_static exampleStub "Spanish" "Yo estas enfadado consigo").1
    sampleCall (List.Mem.head _)

end App
